import Mathlib

/-!
Shallow embedding of the Streamlit UI layer of the RAG PDF chatbot
(src/app.py).  The session state, the sidebar upload handler
(create_sidebar) and the chat handler (create_chat_interface) are
modelled as pure state-transition functions; the external pipeline
functions imported from the tools module (process_pdf_document,
retrieve_relevant_chunks, highlight_matching_chunks,
generate_response_func) are opaque oracle parameters, and every
user-visible render, external call and filesystem write is recorded in
an ordered trace of effects.
-/

/-- Retrieved passage: metadata dict with source and text keys, as
consumed by the chat interface (chunk["source"], chunk["text"]). -/
structure Chunk where
  source : String
  text : String
deriving Repr, DecidableEq

/-- One entry of st.session_state.messages: a dict with "role" and
"content" keys, and, for assistant messages, a "highlighted_chunks"
key; absence of the key is modelled by none. -/
structure Message where
  role : String
  content : String
  highlighted_chunks : Option (List Chunk)
deriving Repr, DecidableEq

/-- The st.session_state fields initialised by init_session_state. -/
structure SessionState where
  messages : List Message
  document_loaded : Bool
  document_name : Option String
  highlighted_chunks : List Chunk
deriving Repr, DecidableEq

/-- Fresh session state as produced by init_session_state. -/
def init_session_state : SessionState :=
  { messages := []
    document_loaded := false
    document_name := none
    highlighted_chunks := [] }

/-- An uploaded file as returned by st.file_uploader: name, size in
bytes, and the byte content returned by getvalue(). -/
structure UploadedFile where
  name : String
  size : Nat
  content : List Nat
deriving Repr, DecidableEq

/-- Observable effects of one create_sidebar turn, in program order:
the size-limit error render, the call to process_pdf_document, the
success banner, the local file write of the uploaded bytes, the
download-link render, the failure error render, and the
already-loaded banner. -/
inductive SideEffect where
  | sizeError (file_size_mb limit : ℚ)
  | ingestCall (name : String)
  | successMsg (name : String) (chunk_count : Nat)
  | writeFile (name : String) (content : List Nat)
  | downloadLink (name : String)
  | failError
  | loadedMsg (name : String)
deriving Repr, DecidableEq

/-- First phase of create_sidebar (src/app.py lines 36-44): the size
check, which on an oversize file renders an error and resets
document_loaded and document_name, and otherwise the name check,
which on a new name clears document_loaded and records the name. -/
def sidebar_check (file_size_limit_mb : ℚ) (s : SessionState)
    (f : UploadedFile) : SessionState × List SideEffect :=
  if (f.size : ℚ) / (1024 * 1024) > file_size_limit_mb then
    ({ s with document_loaded := false, document_name := none },
     [SideEffect.sizeError ((f.size : ℚ) / (1024 * 1024)) file_size_limit_mb])
  else if s.document_name ≠ some f.name then
    ({ s with document_loaded := false, document_name := some f.name }, [])
  else
    (s, [])

/-- Second phase of create_sidebar (src/app.py lines 46-65): when
document_loaded is false, process_pdf_document is invoked; on success
document_loaded is set, the uploaded bytes are written to a local
file named after the document and a download link is rendered; on
failure an error is rendered.  When document_loaded is true the
already-loaded banner is rendered, with a download link if the local
file exists. -/
def sidebar_run (process_pdf_document : UploadedFile → Bool × Nat)
    (file_exists : String → Bool) (f : UploadedFile)
    (st : SessionState × List SideEffect) : SessionState × List SideEffect :=
  if st.1.document_loaded = false then
    if (process_pdf_document f).1 then
      ({ st.1 with document_loaded := true },
       st.2 ++ [SideEffect.ingestCall f.name,
                SideEffect.successMsg f.name (process_pdf_document f).2,
                SideEffect.writeFile f.name f.content,
                SideEffect.downloadLink f.name])
    else
      (st.1, st.2 ++ [SideEffect.ingestCall f.name, SideEffect.failError])
  else
    (st.1, st.2 ++ [SideEffect.loadedMsg f.name] ++
      (if file_exists f.name then [SideEffect.downloadLink f.name] else []))

/-- One turn of create_sidebar (src/app.py lines 22-67): nothing
happens without an upload; with an upload the size and name checks
run first and then the processing block. -/
def create_sidebar (process_pdf_document : UploadedFile → Bool × Nat)
    (file_size_limit_mb : ℚ) (file_exists : String → Bool)
    (s : SessionState) (uploaded_file : Option UploadedFile) :
    SessionState × List SideEffect :=
  match uploaded_file with
  | none => (s, [])
  | some f =>
      sidebar_run process_pdf_document file_exists f
        (sidebar_check file_size_limit_mb s f)

/-- Observable effects of one create_chat_interface turn: the warning
rendered when no document is loaded, and the three pipeline calls. -/
inductive ChatEffect where
  | warnUpload
  | retrieveCall (query : String)
  | generateCall (query : String) (chunks : List Chunk)
  | highlightCall (response : String) (chunks : List Chunk)
deriving Repr, DecidableEq

/-- One turn of create_chat_interface (src/app.py lines 69-118).  The
walrus test on st.chat_input is falsy for no input and for the empty
string.  With no document loaded only the warning is rendered; with a
document loaded the user message is appended, retrieve_relevant_chunks,
generate_response_func and highlight_matching_chunks run in order, and
the assistant message with its highlighted chunks is appended. -/
def create_chat_interface (retrieve_relevant_chunks : String → List Chunk)
    (generate_response_func : String → List Chunk → String)
    (highlight_matching_chunks : String → List Chunk → List Chunk)
    (s : SessionState) (chat_input : Option String) :
    SessionState × List ChatEffect :=
  match chat_input with
  | none => (s, [])
  | some user_query =>
      if user_query = "" then (s, [])
      else if s.document_loaded = false then
        (s, [ChatEffect.warnUpload])
      else
        ({ s with messages :=
            (s.messages ++
              [{ role := "user", content := user_query,
                 highlighted_chunks := none }]) ++
              [{ role := "assistant",
                 content := generate_response_func user_query
                   (retrieve_relevant_chunks user_query),
                 highlighted_chunks := some (highlight_matching_chunks
                   (generate_response_func user_query
                     (retrieve_relevant_chunks user_query))
                   (retrieve_relevant_chunks user_query)) }] },
         [ChatEffect.retrieveCall user_query,
          ChatEffect.generateCall user_query
            (retrieve_relevant_chunks user_query),
          ChatEffect.highlightCall
            (generate_response_func user_query
              (retrieve_relevant_chunks user_query))
            (retrieve_relevant_chunks user_query)])

/-! Concrete fixtures used by witnesses and counterexamples. -/

/-- Ingestion oracle that always fails, as for an unparseable or
zero-byte PDF. -/
def procFail : UploadedFile → Bool × Nat := fun _ => (false, 0)

/-- Ingestion oracle that always succeeds with five chunks. -/
def procOk : UploadedFile → Bool × Nat := fun _ => (true, 5)

/-- Filesystem oracle for a directory with no stored documents. -/
def noFile : String → Bool := fun _ => false

/-- A zero-byte upload. -/
def emptyFile : UploadedFile := { name := "empty.pdf", size := 0, content := [] }

/-- A two-megabyte upload, oversize when the limit is one megabyte. -/
def bigFile : UploadedFile := { name := "big.pdf", size := 2097152, content := [] }

/-- A small in-limit upload named doc.pdf. -/
def okFile : UploadedFile := { name := "doc.pdf", size := 100, content := [1, 2, 3] }

/-- An upload whose size is exactly one megabyte. -/
def limitFile : UploadedFile := { name := "exact.pdf", size := 1048576, content := [7] }

/-- Session in which doc.pdf has already been ingested. -/
def stLoadedDoc : SessionState :=
  { messages := [], document_loaded := true,
    document_name := some "doc.pdf", highlighted_chunks := [] }

/-- Session in which a.pdf has already been ingested. -/
def stLoadedA : SessionState :=
  { messages := [], document_loaded := true,
    document_name := some "a.pdf", highlighted_chunks := [] }

/-- A retrieved chunk fixture. -/
def chunkSky : Chunk := { source := "doc.pdf, page 1", text := "The sky is blue." }

/-- Retriever oracle fixture. -/
def retrieveFix : String → List Chunk := fun _ => [chunkSky]

/-- Generator oracle fixture. -/
def genFix : String → List Chunk → String := fun _ _ => "The sky is blue."

/-- Matcher oracle fixture. -/
def hlFix : String → List Chunk → List Chunk := fun _ cs => cs

/-! Helper lemmas about the first phase of the sidebar turn. -/

lemma sidebar_check_no_ingest (limit : ℚ) (s : SessionState) (f : UploadedFile)
    (n : String) : SideEffect.ingestCall n ∉ (sidebar_check limit s f).2 := by
  unfold sidebar_check
  split_ifs <;> simp

lemma sidebar_check_no_write (limit : ℚ) (s : SessionState) (f : UploadedFile)
    (n : String) (b : List Nat) :
    SideEffect.writeFile n b ∉ (sidebar_check limit s f).2 := by
  unfold sidebar_check
  split_ifs <;> simp

lemma sidebar_check_size_iff (limit : ℚ) (s : SessionState) (f : UploadedFile) :
    (∃ a b, SideEffect.sizeError a b ∈ (sidebar_check limit s f).2) ↔
      (f.size : ℚ) / (1024 * 1024) > limit := by
  unfold sidebar_check
  split_ifs with h1 h2 <;> simp [h1]

lemma sidebar_check_not_loaded (limit : ℚ) (s : SessionState) (f : UploadedFile)
    (h : ¬ (s.document_loaded = true ∧ s.document_name = some f.name)) :
    (sidebar_check limit s f).1.document_loaded = false := by
  unfold sidebar_check
  split_ifs with h1 h2
  · rfl
  · rfl
  · push_neg at h2
    by_cases hb : s.document_loaded = true
    · exact absurd ⟨hb, h2⟩ h
    · simpa using hb

lemma sidebar_check_same_loaded (limit : ℚ) (s : SessionState) (f : UploadedFile)
    (hname : s.document_name = some f.name)
    (hsize : ¬ ((f.size : ℚ) / (1024 * 1024) > limit)) :
    sidebar_check limit s f = (s, []) := by
  unfold sidebar_check
  rw [if_neg hsize, if_neg (by simp [hname])]


/-! Helper unfolding and fixture evaluation lemmas. -/

lemma create_sidebar_some (process_pdf_document : UploadedFile → Bool × Nat)
    (limit : ℚ) (file_exists : String → Bool) (s : SessionState)
    (f : UploadedFile) :
    create_sidebar process_pdf_document limit file_exists s (some f) =
      sidebar_run process_pdf_document file_exists f
        (sidebar_check limit s f) := rfl

lemma check_fresh_empty :
    sidebar_check 10 init_session_state emptyFile =
      ({ messages := [], document_loaded := false,
         document_name := some "empty.pdf", highlighted_chunks := [] }, []) := by
  unfold sidebar_check init_session_state emptyFile
  rw [if_neg (by norm_num), if_pos (by simp)]

lemma check_fresh_big :
    sidebar_check 1 init_session_state bigFile =
      ({ messages := [], document_loaded := false,
         document_name := none, highlighted_chunks := [] },
       [SideEffect.sizeError 2 1]) := by
  unfold sidebar_check init_session_state bigFile
  rw [if_pos (by norm_num)]
  norm_num

lemma check_loadedA_big :
    sidebar_check 1 stLoadedA bigFile =
      ({ messages := [], document_loaded := false,
         document_name := none, highlighted_chunks := [] },
       [SideEffect.sizeError 2 1]) := by
  unfold sidebar_check stLoadedA bigFile
  rw [if_pos (by norm_num)]
  norm_num

lemma check_loadedDoc_ok :
    sidebar_check 10 stLoadedDoc okFile = (stLoadedDoc, []) :=
  sidebar_check_same_loaded 10 stLoadedDoc okFile rfl (by norm_num [okFile])

lemma check_fresh_limit :
    sidebar_check 1 init_session_state limitFile =
      ({ messages := [], document_loaded := false,
         document_name := some "exact.pdf", highlighted_chunks := [] }, []) := by
  unfold sidebar_check init_session_state limitFile
  rw [if_neg (by norm_num), if_pos (by simp)]

/-- C1: whenever a create_sidebar turn invokes the ingestion pipeline
and process_pdf_document returns success = False, the turn ends with
st.session_state.document_loaded = False, so the document is not
marked as loaded; this covers a zero-byte upload whose ingestion
fails. -/
theorem C1_failed_ingestion_leaves_unloaded
    (process_pdf_document : UploadedFile → Bool × Nat) (limit : ℚ)
    (file_exists : String → Bool) (s : SessionState) (f : UploadedFile)
    (hcall : SideEffect.ingestCall f.name ∈
      (create_sidebar process_pdf_document limit file_exists s (some f)).2)
    (hfail : (process_pdf_document f).1 = false) :
    (create_sidebar process_pdf_document limit file_exists s
      (some f)).1.document_loaded = false := by
  rw [create_sidebar_some] at hcall ⊢
  unfold sidebar_run at hcall ⊢
  by_cases h1 : (sidebar_check limit s f).1.document_loaded = false
  · simp [h1, hfail]
  · exfalso
    rw [if_neg h1] at hcall
    by_cases hfe : file_exists f.name = true <;>
      simp [hfe, sidebar_check_no_ingest limit s f f.name] at hcall

/-- Witness for C1: the zero-byte upload empty.pdf in a fresh session
with failing ingestion; the pipeline is invoked and the turn ends with
the document not marked as loaded. -/
theorem C1_witness :
    SideEffect.ingestCall "empty.pdf" ∈
      (create_sidebar procFail 10 noFile init_session_state
        (some emptyFile)).2 ∧
    (create_sidebar procFail 10 noFile init_session_state
      (some emptyFile)).1.document_loaded = false :=
  ⟨by
    rw [create_sidebar_some, check_fresh_empty]
    unfold sidebar_run procFail
    simp [emptyFile],
   C1_failed_ingestion_leaves_unloaded procFail 10 noFile
     init_session_state emptyFile
     (by
       rw [create_sidebar_some, check_fresh_empty]
       unfold sidebar_run procFail
       simp [emptyFile]) rfl⟩

lemma sidebar_run_trace (process_pdf_document : UploadedFile → Bool × Nat)
    (file_exists : String → Bool) (f : UploadedFile)
    (st : SessionState × List SideEffect) :
    ∃ rest : List SideEffect,
      (sidebar_run process_pdf_document file_exists f st).2 = st.2 ++ rest ∧
      ∀ a b, SideEffect.sizeError a b ∉ rest := by
  unfold sidebar_run
  split_ifs with h1 h2 h3
  · exact ⟨[SideEffect.ingestCall f.name,
      SideEffect.successMsg f.name (process_pdf_document f).2,
      SideEffect.writeFile f.name f.content,
      SideEffect.downloadLink f.name], rfl, by simp⟩
  · exact ⟨[SideEffect.ingestCall f.name, SideEffect.failError], rfl, by simp⟩
  · exact ⟨[SideEffect.loadedMsg f.name, SideEffect.downloadLink f.name],
      by simp, by simp⟩
  · exact ⟨[SideEffect.loadedMsg f.name], by simp, by simp⟩

/-- Counterexample to C2: with doc.pdf already loaded, uploading a
same-named in-limit file does not re-invoke the ingestion pipeline at
all, so the prior chunks are never replaced. -/
theorem C2_counterexample :
    SideEffect.ingestCall "doc.pdf" ∉
      (create_sidebar procOk 10 noFile stLoadedDoc (some okFile)).2 := by
  rw [create_sidebar_some, check_loadedDoc_ok]
  unfold sidebar_run noFile stLoadedDoc
  simp [okFile]

/-- C2 amended: while document_loaded is True and document_name
matches the uploaded name, create_sidebar skips ingestion entirely,
leaving the session state unchanged; the ingestion pipeline is only
re-invoked when the name differs or no document is loaded. -/
theorem C2_same_name_upload_skips_ingestion
    (process_pdf_document : UploadedFile → Bool × Nat) (limit : ℚ)
    (file_exists : String → Bool) (s : SessionState) (f : UploadedFile)
    (hload : s.document_loaded = true) (hname : s.document_name = some f.name)
    (hsize : ¬ ((f.size : ℚ) / (1024 * 1024) > limit)) :
    (create_sidebar process_pdf_document limit file_exists s (some f)).1 = s ∧
    ∀ n, SideEffect.ingestCall n ∉
      (create_sidebar process_pdf_document limit file_exists s (some f)).2 := by
  rw [create_sidebar_some, sidebar_check_same_loaded limit s f hname hsize]
  unfold sidebar_run
  rw [if_neg (by simp [hload])]
  refine ⟨rfl, fun n => ?_⟩
  by_cases hfe : file_exists f.name = true <;> simp [hfe]

/-- Witness for C2 amended: doc.pdf loaded, same-named upload, state
unchanged and no ingestion call. -/
theorem C2_witness :
    (create_sidebar procOk 10 noFile stLoadedDoc (some okFile)).1 =
      stLoadedDoc ∧
    ∀ n, SideEffect.ingestCall n ∉
      (create_sidebar procOk 10 noFile stLoadedDoc (some okFile)).2 :=
  C2_same_name_upload_skips_ingestion procOk 10 noFile stLoadedDoc okFile
    rfl rfl (by norm_num [okFile])

/-- C3: while document_loaded is False, a submitted question renders
only the upload-first warning and neither retrieve_relevant_chunks
nor the answer generator is invoked; contrapositively, a retrieval or
generation call can only occur when document_loaded is True. -/
theorem C3_no_retrieval_without_document
    (retrieve_relevant_chunks : String → List Chunk)
    (generate_response_func : String → List Chunk → String)
    (highlight_matching_chunks : String → List Chunk → List Chunk)
    (s : SessionState) (chat_input : Option String)
    (h : s.document_loaded = false) :
    (∀ q, chat_input = some q → q ≠ "" →
      (create_chat_interface retrieve_relevant_chunks generate_response_func
        highlight_matching_chunks s chat_input).2 = [ChatEffect.warnUpload]) ∧
    (∀ q, ChatEffect.retrieveCall q ∉
      (create_chat_interface retrieve_relevant_chunks generate_response_func
        highlight_matching_chunks s chat_input).2) ∧
    (∀ q c, ChatEffect.generateCall q c ∉
      (create_chat_interface retrieve_relevant_chunks generate_response_func
        highlight_matching_chunks s chat_input).2) := by
  cases chat_input with
  | none => simp [create_chat_interface]
  | some q =>
      by_cases hq : q = ""
      · simp [create_chat_interface, hq]
      · simp [create_chat_interface, hq, h]

/-- Witness for C3: a question in a fresh session with no document
loaded renders the warning and makes no pipeline calls. -/
theorem C3_witness :
    (∀ q, (some "What color is the sky?" : Option String) = some q →
      q ≠ "" →
      (create_chat_interface retrieveFix genFix hlFix init_session_state
        (some "What color is the sky?")).2 = [ChatEffect.warnUpload]) ∧
    (∀ q, ChatEffect.retrieveCall q ∉
      (create_chat_interface retrieveFix genFix hlFix init_session_state
        (some "What color is the sky?")).2) ∧
    (∀ q c, ChatEffect.generateCall q c ∉
      (create_chat_interface retrieveFix genFix hlFix init_session_state
        (some "What color is the sky?")).2) :=
  C3_no_retrieval_without_document retrieveFix genFix hlFix
    init_session_state (some "What color is the sky?") rfl

/-- C5: with a document loaded, a submitted question produces exactly
one retrieval, then one generation on the query and the retrieved
chunks, then one highlighting on the response and the same retrieved
chunks, in that order. -/
theorem C5_pipeline_stage_order
    (retrieve_relevant_chunks : String → List Chunk)
    (generate_response_func : String → List Chunk → String)
    (highlight_matching_chunks : String → List Chunk → List Chunk)
    (s : SessionState) (q : String)
    (hq : q ≠ "") (hload : s.document_loaded = true) :
    (create_chat_interface retrieve_relevant_chunks generate_response_func
      highlight_matching_chunks s (some q)).2 =
      [ChatEffect.retrieveCall q,
       ChatEffect.generateCall q (retrieve_relevant_chunks q),
       ChatEffect.highlightCall
         (generate_response_func q (retrieve_relevant_chunks q))
         (retrieve_relevant_chunks q)] := by
  simp [create_chat_interface, hq, hload]

/-- Witness for C5: concrete question against the loaded doc.pdf
session with fixture pipeline oracles. -/
theorem C5_witness :
    (create_chat_interface retrieveFix genFix hlFix stLoadedDoc
      (some "What color is the sky?")).2 =
      [ChatEffect.retrieveCall "What color is the sky?",
       ChatEffect.generateCall "What color is the sky?" [chunkSky],
       ChatEffect.highlightCall "The sky is blue." [chunkSky]] := by
  rw [C5_pipeline_stage_order retrieveFix genFix hlFix stLoadedDoc
    "What color is the sky?" (by decide) rfl]
  rfl

/-- C10: a question submitted while no document is loaded leaves the
whole session state, in particular st.session_state.messages,
unchanged, and the only render of the turn is the warning. -/
theorem C10_no_message_recorded_without_document
    (retrieve_relevant_chunks : String → List Chunk)
    (generate_response_func : String → List Chunk → String)
    (highlight_matching_chunks : String → List Chunk → List Chunk)
    (s : SessionState) (q : String)
    (hq : q ≠ "") (h : s.document_loaded = false) :
    (create_chat_interface retrieve_relevant_chunks generate_response_func
      highlight_matching_chunks s (some q)).1 = s ∧
    (create_chat_interface retrieve_relevant_chunks generate_response_func
      highlight_matching_chunks s (some q)).2 = [ChatEffect.warnUpload] := by
  simp [create_chat_interface, hq, h]

/-- Witness for C10: concrete question in a fresh session. -/
theorem C10_witness :
    (create_chat_interface retrieveFix genFix hlFix init_session_state
      (some "What color is the sky?")).1 = init_session_state ∧
    (create_chat_interface retrieveFix genFix hlFix init_session_state
      (some "What color is the sky?")).2 = [ChatEffect.warnUpload] :=
  C10_no_message_recorded_without_document retrieveFix genFix hlFix
    init_session_state "What color is the sky?" (by decide) rfl

/-- C6: st.session_state.messages is append-only across a
create_chat_interface turn: the new message list extends the old one,
every appended message has role user or assistant together with a
content string, and every appended assistant message carries a
highlighted_chunks list. -/
theorem C6_messages_append_only
    (retrieve_relevant_chunks : String → List Chunk)
    (generate_response_func : String → List Chunk → String)
    (highlight_matching_chunks : String → List Chunk → List Chunk)
    (s : SessionState) (chat_input : Option String) :
    ∃ appended : List Message,
      (create_chat_interface retrieve_relevant_chunks generate_response_func
        highlight_matching_chunks s chat_input).1.messages =
        s.messages ++ appended ∧
      ∀ m ∈ appended,
        (m.role = "user" ∨ m.role = "assistant") ∧
        (m.role = "assistant" → m.highlighted_chunks ≠ none) := by
  cases chat_input with
  | none => exact ⟨[], by simp [create_chat_interface]⟩
  | some q =>
      by_cases hq : q = ""
      · exact ⟨[], by simp [create_chat_interface, hq]⟩
      · by_cases hld : s.document_loaded = false
        · exact ⟨[], by simp [create_chat_interface, hq, hld]⟩
        · refine ⟨[Message.mk "user" q none,
            Message.mk "assistant"
              (generate_response_func q (retrieve_relevant_chunks q))
              (some (highlight_matching_chunks
                (generate_response_func q (retrieve_relevant_chunks q))
                (retrieve_relevant_chunks q)))], ?_, ?_⟩
          · simp [create_chat_interface, hq, hld]
          · intro m hm
            rcases List.mem_pair.mp hm with rfl | rfl <;>
              refine ⟨by simp, fun hrole => ?_⟩
            · exact absurd hrole
                (show ("user" : String) ≠ "assistant" by decide)
            · simp

/-- Witness for C6: the appended messages of a concrete loaded-session
turn satisfy the role and highlighted-chunks shape. -/
theorem C6_witness :
    ∃ appended : List Message,
      (create_chat_interface retrieveFix genFix hlFix stLoadedDoc
        (some "What color is the sky?")).1.messages =
        stLoadedDoc.messages ++ appended ∧
      ∀ m ∈ appended,
        (m.role = "user" ∨ m.role = "assistant") ∧
        (m.role = "assistant" → m.highlighted_chunks ≠ none) :=
  C6_messages_append_only retrieveFix genFix hlFix stLoadedDoc
    (some "What color is the sky?")

/-- C4: the code violates the claim at a concrete input: a 2 MB
upload against a 1 MB limit in a fresh session renders the size
error, yet the processing block at src/app.py line 46 is not guarded
by the size check, so process_pdf_document is still invoked on the
oversize file. -/
theorem C4_oversize_upload_still_ingested :
    SideEffect.sizeError 2 1 ∈
      (create_sidebar procFail 1 noFile init_session_state
        (some bigFile)).2 ∧
    SideEffect.ingestCall "big.pdf" ∈
      (create_sidebar procFail 1 noFile init_session_state
        (some bigFile)).2 := by
  rw [create_sidebar_some, check_fresh_big]
  unfold sidebar_run procFail
  simp [bigFile]

/-- Counterexample to C8: with a.pdf previously loaded, an oversize
upload whose ingestion succeeds ends the turn with document_loaded =
True, not False as the claim states, because the unguarded processing
block re-ingests the oversize file. -/
theorem C8_counterexample :
    (create_sidebar procOk 1 noFile stLoadedA
      (some bigFile)).1.document_loaded = true := by
  rw [create_sidebar_some, check_loadedA_big]
  unfold sidebar_run procOk
  simp

/-- C8 amended: an oversize upload resets document_name to None and
clears document_loaded, but the oversize file is then still passed to
process_pdf_document; the turn ends with document_loaded = False
exactly when that ingestion fails, and with document_loaded = True
when it succeeds. -/
theorem C8_oversize_resets_then_still_ingests
    (process_pdf_document : UploadedFile → Bool × Nat) (limit : ℚ)
    (file_exists : String → Bool) (s : SessionState) (f : UploadedFile)
    (h : (f.size : ℚ) / (1024 * 1024) > limit) :
    SideEffect.ingestCall f.name ∈
      (create_sidebar process_pdf_document limit file_exists s
        (some f)).2 ∧
    (create_sidebar process_pdf_document limit file_exists s
      (some f)).1.document_name = none ∧
    ((process_pdf_document f).1 = false →
      (create_sidebar process_pdf_document limit file_exists s
        (some f)).1.document_loaded = false) ∧
    ((process_pdf_document f).1 = true →
      (create_sidebar process_pdf_document limit file_exists s
        (some f)).1.document_loaded = true) := by
  rw [create_sidebar_some]
  unfold sidebar_check
  rw [if_pos h]
  unfold sidebar_run
  cases hp : (process_pdf_document f).1 <;> simp [hp]

/-- Witness for C8 amended: the oversize big.pdf with failing
ingestion after a.pdf had been loaded. -/
theorem C8_witness :
    SideEffect.ingestCall bigFile.name ∈
      (create_sidebar procFail 1 noFile stLoadedA (some bigFile)).2 ∧
    (create_sidebar procFail 1 noFile stLoadedA
      (some bigFile)).1.document_name = none ∧
    ((procFail bigFile).1 = false →
      (create_sidebar procFail 1 noFile stLoadedA
        (some bigFile)).1.document_loaded = false) ∧
    ((procFail bigFile).1 = true →
      (create_sidebar procFail 1 noFile stLoadedA
        (some bigFile)).1.document_loaded = true) :=
  C8_oversize_resets_then_still_ingests procFail 1 noFile stLoadedA bigFile
    (by norm_num [bigFile])

/-- C7: across a create_sidebar turn, the uploaded bytes are written
to a local file named after the document if and only if the ingestion
pipeline ran and returned success = True; on success the written file
carries the uploaded bytes and a download link is rendered, while on
ingestion failure nothing at all is written to local storage. -/
theorem C7_persist_iff_ingestion_success
    (process_pdf_document : UploadedFile → Bool × Nat) (limit : ℚ)
    (file_exists : String → Bool) (s : SessionState) (f : UploadedFile) :
    ((∃ b, SideEffect.writeFile f.name b ∈
        (create_sidebar process_pdf_document limit file_exists s
          (some f)).2) ↔
      (SideEffect.ingestCall f.name ∈
        (create_sidebar process_pdf_document limit file_exists s
          (some f)).2 ∧
       (process_pdf_document f).1 = true)) ∧
    ((process_pdf_document f).1 = false → ∀ n b,
      SideEffect.writeFile n b ∉
        (create_sidebar process_pdf_document limit file_exists s
          (some f)).2) ∧
    ((process_pdf_document f).1 = true →
      SideEffect.ingestCall f.name ∈
        (create_sidebar process_pdf_document limit file_exists s
          (some f)).2 →
      SideEffect.writeFile f.name f.content ∈
        (create_sidebar process_pdf_document limit file_exists s
          (some f)).2 ∧
      SideEffect.downloadLink f.name ∈
        (create_sidebar process_pdf_document limit file_exists s
          (some f)).2) := by
  rw [create_sidebar_some]
  unfold sidebar_run
  by_cases h1 : (sidebar_check limit s f).1.document_loaded = false
  · rw [if_pos h1]
    cases hp : (process_pdf_document f).1 <;>
      simp [hp, sidebar_check_no_write, sidebar_check_no_ingest]
  · rw [if_neg h1]
    by_cases hfe : file_exists f.name = true <;>
      simp [hfe, sidebar_check_no_write, sidebar_check_no_ingest]

/-- Witness for C7: successful ingestion of doc.pdf in a fresh
session; the iff and both implications hold at this input. -/
theorem C7_witness :
    ((∃ b, SideEffect.writeFile okFile.name b ∈
        (create_sidebar procOk 10 noFile init_session_state
          (some okFile)).2) ↔
      (SideEffect.ingestCall okFile.name ∈
        (create_sidebar procOk 10 noFile init_session_state
          (some okFile)).2 ∧
       (procOk okFile).1 = true)) ∧
    ((procOk okFile).1 = false → ∀ n b,
      SideEffect.writeFile n b ∉
        (create_sidebar procOk 10 noFile init_session_state
          (some okFile)).2) ∧
    ((procOk okFile).1 = true →
      SideEffect.ingestCall okFile.name ∈
        (create_sidebar procOk 10 noFile init_session_state
          (some okFile)).2 →
      SideEffect.writeFile okFile.name okFile.content ∈
        (create_sidebar procOk 10 noFile init_session_state
          (some okFile)).2 ∧
      SideEffect.downloadLink okFile.name ∈
        (create_sidebar procOk 10 noFile init_session_state
          (some okFile)).2) :=
  C7_persist_iff_ingestion_success procOk 10 noFile init_session_state okFile

/-- C9: the size limit is exclusive: the size error occurs in a turn
exactly when the size in megabytes is strictly greater than
file_size_limit_mb, and a file whose size equals the limit exactly is
accepted, reaching the ingestion pipeline whenever a same-named
document is not already loaded. -/
theorem C9_size_limit_exclusive
    (process_pdf_document : UploadedFile → Bool × Nat) (limit : ℚ)
    (file_exists : String → Bool) (s : SessionState) (f : UploadedFile) :
    ((∃ a b, SideEffect.sizeError a b ∈
        (create_sidebar process_pdf_document limit file_exists s
          (some f)).2) ↔
      (f.size : ℚ) / (1024 * 1024) > limit) ∧
    ((f.size : ℚ) / (1024 * 1024) = limit →
      ¬ (s.document_loaded = true ∧ s.document_name = some f.name) →
      SideEffect.ingestCall f.name ∈
        (create_sidebar process_pdf_document limit file_exists s
          (some f)).2 ∧
      ∀ a b, SideEffect.sizeError a b ∉
        (create_sidebar process_pdf_document limit file_exists s
          (some f)).2) := by
  obtain ⟨rest, hres, hnone⟩ :=
    sidebar_run_trace process_pdf_document file_exists f
      (sidebar_check limit s f)
  have hTR : (create_sidebar process_pdf_document limit file_exists s
      (some f)).2 = (sidebar_check limit s f).2 ++ rest := by
    rw [create_sidebar_some, hres]
  constructor
  · rw [hTR]
    constructor
    · rintro ⟨a, b, hab⟩
      rcases List.mem_append.mp hab with hmem | hmem
      · exact (sidebar_check_size_iff limit s f).mp ⟨a, b, hmem⟩
      · exact absurd hmem (hnone a b)
    · intro hgt
      obtain ⟨a, b, hmem⟩ := (sidebar_check_size_iff limit s f).mpr hgt
      exact ⟨a, b, List.mem_append.mpr (Or.inl hmem)⟩
  · intro heq hnl
    have hngt : ¬ ((f.size : ℚ) / (1024 * 1024) > limit) := by
      rw [heq]
      exact lt_irrefl limit
    constructor
    · rw [create_sidebar_some]
      unfold sidebar_run
      rw [if_pos (sidebar_check_not_loaded limit s f hnl)]
      cases hp : (process_pdf_document f).1 <;> simp [hp]
    · intro a b hab
      rw [hTR] at hab
      rcases List.mem_append.mp hab with hmem | hmem
      · exact hngt ((sidebar_check_size_iff limit s f).mp ⟨a, b, hmem⟩)
      · exact hnone a b hmem

/-- Witness for C9: a file of exactly one megabyte against a one
megabyte limit in a fresh session is accepted and ingested with no
size error. -/
theorem C9_witness :
    SideEffect.ingestCall limitFile.name ∈
      (create_sidebar procOk 1 noFile init_session_state
        (some limitFile)).2 ∧
    ∀ a b, SideEffect.sizeError a b ∉
      (create_sidebar procOk 1 noFile init_session_state
        (some limitFile)).2 :=
  (C9_size_limit_exclusive procOk 1 noFile init_session_state limitFile).2
    (by norm_num [limitFile]) (by simp [init_session_state])
